import Mathlib

/-!
Verification of the content-extraction and response-normalization pipeline of
the Hebrew homework grading system (`src/homework_grading_system.py`).

The Python class `HomeworkGradingSystem` is shallowly embedded here:
  * the mutable fields `reference_content`, `reference_images`,
    `reference_type` become the record `GradingState`, threaded explicitly;
  * the external Gemini model is an oracle argument of type
    `String → Except String String` (or over content lists), so a method that
    returns without consulting the oracle provably never invokes the model;
  * PDF/DOCX inputs are embedded at the point after the external libraries
    (PyPDF2, python-docx, pdf2image) have read them: a readable PDF is its
    list of pages (per-page extractable text plus the page's rasterization),
    and a library failure is the `malformed`/`corrupt` constructor carrying
    the exception text;
  * `json.loads` is modelled by an executable recursive-descent parser over
    the JSON fragment this program exchanges (null/true/false, strings with
    simple escapes, integers, arrays, objects); floating-point numbers and
    `\u` escapes are outside the modelled fragment (the parser rejects them);
  * Python dicts are association lists (`PyDict`) with dict-assignment
    semantics (`setField`: overwrite in place, else append), which is also
    how object literals are built, so keys are unique as in Python;
  * `datetime.now().isoformat()` is an explicit `now : String` argument;
  * Streamlit calls (`st.error`, rendering) are display-only side effects;
    where a branch only renders a message and falls through, the model
    records the returned value (for `extract_docx_text`: the empty string).

The method `_extract_score_from_text` is called at lines 198, 267 and 325 of
the source but is not defined anywhere in the provided source file; it is
modelled from the spec (see its doc comment below).
-/

/-- An in-memory image handle (PIL image / pdf2image page raster), abstract. -/
structure Image where
  id : Nat

/-- One page of a readable PDF: the text PyPDF2 extracts from it and the
rasterization pdf2image produces for it at 200 dpi. -/
structure PDFPage where
  text : String
  raster : Image

/-- A PDF input as seen through the external libraries: either a readable
file (its pages) or a malformed stream on which PyPDF2 / pdf2image raise,
carrying the exception text. -/
inductive PDFInput where
  | file (pages : List PDFPage)
  | malformed (msg : String)

/-- The dict returned by `extract_pdf_content` (lines 59-84):
`{"type": "text"|"images"|"error", "content": ...}`. -/
inductive ExtractResult where
  | text (content : String)
  | images (content : List Image)
  | error (content : String)

/-- A DOCX input as seen through python-docx: a readable document (its
paragraph texts) or a corrupted container on which `docx.Document` raises. -/
inductive DocxInput where
  | document (paragraphs : List String)
  | corrupt (msg : String)

/-- The mutable reference-material fields of `HomeworkGradingSystem`
(lines 47-49). -/
structure GradingState where
  reference_content : String
  reference_images : List Image
  reference_type : String

/-- Initial field values set in `__init__` (lines 47-49). -/
def initial_state : GradingState :=
  { reference_content := "", reference_images := [], reference_type := "none" }

/-- The `homework_content` argument of
`analyze_homework_with_reference_images`: a Python `str` or a PIL image
(line 259: `isinstance(homework_content, str)`, line 261: `hasattr(..., 'mode')`). -/
inductive HomeworkContent where
  | text (s : String)
  | image (img : Image)

/-- One element of the heterogeneous `content_list` sent to the vision model
(lines 250-264): a prompt/text part or an image part. -/
inductive ContentPart where
  | text (s : String)
  | image (img : Image)

/-- JSON values, restricted to the fragment this program exchanges: numbers
are integers (floating-point literals are outside the modelled fragment). -/
inductive Json where
  | null
  | bool (b : Bool)
  | num (n : Int)
  | str (s : String)
  | arr (elems : List Json)
  | obj (fields : List (String × Json))

/-- A Python dict with string keys, as an association list with unique keys
(in insertion order, as Python dicts iterate). -/
def PyDict : Type := List (String × Json)

/-- Python dict assignment `d[k] = v`: overwrite the value in place if the
key exists, else append the new key at the end. -/
def setField : List (String × Json) → String → Json → List (String × Json)
  | [], k, v => [(k, v)]
  | (k', v') :: rest, k, v =>
    if k' = k then (k, v) :: rest else (k', v') :: setField rest k v

/-- Python dict lookup `d[k]` / membership `k in d` (keys are unique). -/
def dictGet : List (String × Json) → String → Option Json
  | [], _ => none
  | (k, v) :: rest, key => if k = key then some v else dictGet rest key

/-- Trailing part of `pyStrip`: remove leading whitespace, then trailing
whitespace (via reversal). -/
def stripList (l : List Char) : List Char :=
  ((l.dropWhile Char.isWhitespace).reverse.dropWhile Char.isWhitespace).reverse

/-- Python `str.strip()` (on the whitespace this program encounters:
space, tab, newline, carriage return). -/
def pyStrip (s : String) : String :=
  String.mk (stripList s.toList)

/-- Python `s[:n]` on a `str` (a prefix of at most `n` characters). -/
def pyTake (s : String) (n : Nat) : String :=
  String.mk (s.toList.take n)

/-- Python `s[a:b]` on a `str` with `0 ≤ a ≤ b` (used for the fence slices
`s[7:-3]` and `s[3:-3]`, where `b` is `len(s) - 3`). -/
def pySlice (s : String) (a b : Nat) : String :=
  String.mk ((s.toList.take b).drop a)

/-- Character-list prefix test: does the second list start with the first? -/
def listStartsWith : List Char → List Char → Bool
  | [], _ => true
  | _ :: _, [] => false
  | p :: ps, c :: cs => p == c && listStartsWith ps cs

/-- Python `s.startswith(pre)`. -/
def pyStartsWith (s pre : String) : Bool :=
  listStartsWith pre.toList s.toList

/-- Python string length `len(s)` (counts characters). -/
def pyLen (s : String) : Nat :=
  s.toList.length

/-- The opening-brace character (written via its code point to keep brace
characters out of the source text). -/
def lbrace : Char := Char.ofNat 123

/-- The closing-brace character. -/
def rbrace : Char := Char.ofNat 125

/-- The whitespace characters `json.loads` skips between tokens. -/
def jsonWs (c : Char) : Bool :=
  c = ' ' || c = '\t' || c = '\n' || c = '\r'

/-- The table of JSON string escapes recognised by the modelled fragment:
each escape letter paired with the character it denotes. -/
def escTable : List (Char × Char) :=
  [('"', '"'), ('\\', '\\'), ('/', '/'), ('n', '\n'), ('t', '\t'), ('r', '\r'),
   ('b', Char.ofNat 8), ('f', Char.ofNat 12)]

/-- Resolve a JSON string escape via the table (`\uXXXX` is outside the
modelled fragment and makes the parse fail). -/
def escChar (c : Char) : Option Char :=
  (escTable.find? (fun p => p.fst = c)).map Prod.snd

/-- Parse the body of a JSON string after the opening quote, accumulating
characters in reverse; returns the string and the remaining input. -/
def parseStringBody : List Char → List Char → Option (String × List Char)
  | acc, '"' :: rest => some (String.mk acc.reverse, rest)
  | acc, '\\' :: c :: rest =>
    match escChar c with
    | some e => parseStringBody (e :: acc) rest
    | none => none
  | acc, c :: rest => parseStringBody (c :: acc) rest
  | _, [] => none

/-- The numeric value of a run of decimal digits. -/
def digitsVal (ds : List Char) : Nat :=
  ds.foldl (fun acc c => 10 * acc + (c.toNat - '0'.toNat)) 0

/-- Finish an integer literal: a following `.`, `e` or `E` would make it a
float, which is outside the modelled fragment, so the parse fails there. -/
def finishIntLit (v : Int) (rest : List Char) : Option (Int × List Char) :=
  match rest with
  | c :: _ => if c = '.' || c = 'e' || c = 'E' then none else some (v, rest)
  | [] => some (v, [])

/-- Parse a JSON integer literal (optional minus sign, then digits). -/
def parseIntLit (cs : List Char) : Option (Int × List Char) :=
  match cs with
  | '-' :: rest =>
    let ds := rest.takeWhile Char.isDigit
    if ds.isEmpty then none
    else finishIntLit (-(Int.ofNat (digitsVal ds))) (rest.drop ds.length)
  | _ =>
    let ds := cs.takeWhile Char.isDigit
    if ds.isEmpty then none
    else finishIntLit (Int.ofNat (digitsVal ds)) (cs.drop ds.length)

mutual

/-- Recursive-descent parser for the JSON fragment of §Json, fuelled; models
`json.loads` applied by `analyze_homework_text` (line 191). One unit of fuel
is spent per parser step, and the fuel supplied by `json_loads` is linear in
the input length, which bounds every possible derivation. -/
def parseJsonValue : Nat → List Char → Option (Json × List Char)
  | 0, _ => none
  | fuel + 1, cs =>
    match cs.dropWhile jsonWs with
    | 'n' :: 'u' :: 'l' :: 'l' :: rest => some (Json.null, rest)
    | 't' :: 'r' :: 'u' :: 'e' :: rest => some (Json.bool true, rest)
    | 'f' :: 'a' :: 'l' :: 's' :: 'e' :: rest => some (Json.bool false, rest)
    | '"' :: rest =>
      match parseStringBody [] rest with
      | some (s, r) => some (Json.str s, r)
      | none => none
    | '[' :: rest =>
      (match rest.dropWhile jsonWs with
       | ']' :: r => some (Json.arr [], r)
       | _ =>
         match parseJsonElems fuel [] rest with
         | some (xs, r) => some (Json.arr xs, r)
         | none => none)
    | c :: rest =>
      if c = lbrace then
        match rest.dropWhile jsonWs with
        | d :: _ =>
          if d = rbrace then some (Json.obj [], (rest.dropWhile jsonWs).drop 1)
          else
            match parseJsonMembers fuel [] rest with
            | some (fs, r) => some (Json.obj fs, r)
            | none => none
        | [] => none
      else if c = '-' || c.isDigit then
        match parseIntLit (c :: rest) with
        | some (v, r) => some (Json.num v, r)
        | none => none
      else none
    | [] => none

/-- Parse the comma-separated elements of a non-empty JSON array, up to and
including the closing bracket. -/
def parseJsonElems : Nat → List Json → List Char → Option (List Json × List Char)
  | 0, _, _ => none
  | fuel + 1, acc, cs =>
    match parseJsonValue fuel cs with
    | none => none
    | some (v, rest) =>
      match rest.dropWhile jsonWs with
      | ']' :: r => some (acc ++ [v], r)
      | ',' :: r => parseJsonElems fuel (acc ++ [v]) r
      | _ => none

/-- Parse the comma-separated members of a non-empty JSON object, up to and
including the closing brace; members are inserted with Python dict-assignment
semantics, so duplicate keys keep their first position and last value. -/
def parseJsonMembers : Nat → List (String × Json) → List Char →
    Option (List (String × Json) × List Char)
  | 0, _, _ => none
  | fuel + 1, acc, cs =>
    match cs.dropWhile jsonWs with
    | '"' :: rest =>
      match parseStringBody [] rest with
      | none => none
      | some (k, r1) =>
        match r1.dropWhile jsonWs with
        | ':' :: r2 =>
          match parseJsonValue fuel r2 with
          | none => none
          | some (v, r3) =>
            match r3.dropWhile jsonWs with
            | c :: r4 =>
              if c = rbrace then some (setField acc k v, r4)
              else if c = ',' then parseJsonMembers fuel (setField acc k v) r4
              else none
            | [] => none
        | _ => none
    | _ => none

end

/-- Python `json.loads` on the modelled fragment: parse one value and require
that only whitespace remains (otherwise `json.loads` raises
`JSONDecodeError`, modelled as `none`). -/
def json_loads (s : String) : Option Json :=
  match parseJsonValue (2 * s.toList.length + 2) s.toList with
  | some (v, rest) => if (rest.dropWhile jsonWs).isEmpty then some v else none
  | none => none

/-- The six characters of the label `score:` in lowercase, for the
case-insensitive `Score: N` pattern. -/
def scoreLabel : List Char := ['s', 'c', 'o', 'r', 'e', ':']

/-- The five characters of the Hebrew label `ציון:`. -/
def hebrewScoreLabel : List Char := ['צ', 'י', 'ו', 'ן', ':']

/-- Read an integer after a score label: skip spaces, then require at least
one digit. -/
def numberAfterLabel (cs : List Char) : Option Nat :=
  let cs' := cs.dropWhile (fun c => c = ' ')
  let ds := cs'.takeWhile Char.isDigit
  if ds.isEmpty then none else some (digitsVal ds)

/-- Recognise a score pattern starting exactly at this position: a run of
digits immediately followed by `/100`, the case-insensitive label `score:`
followed by optional spaces and digits, or the Hebrew label `ציון:` followed
by optional spaces and digits. -/
def matchScoreAt (cs : List Char) : Option Nat :=
  let ds := cs.takeWhile Char.isDigit
  if !ds.isEmpty && ((cs.drop ds.length).take 4 == ['/', '1', '0', '0']) then
    some (digitsVal ds)
  else if (cs.take 6).map Char.toLower == scoreLabel then
    numberAfterLabel (cs.drop 6)
  else if cs.take 5 == hebrewScoreLabel then
    numberAfterLabel (cs.drop 5)
  else none

/-- Scan left to right for the first position where a score pattern matches. -/
def scanScore : List Char → Option Nat
  | [] => none
  | c :: rest =>
    match matchScoreAt (c :: rest) with
    | some n => some n
    | none => scanScore rest

/-- Clamp an extracted score to the interval `[0, 100]`. -/
def clampScore (n : Nat) : Int :=
  max 0 (min 100 (Int.ofNat n))

/-- Modelled from the spec: the method `_extract_score_from_text` is called
by `analyze_homework_text` (line 198), `analyze_homework_with_reference_images`
(line 267) and `analyze_homework_image` (line 325), but its definition is
missing from the provided source file. Following §4.4 step 3 of the spec:
scan the raw text for the first occurrence of a pattern `N/100` or `Score: N`
(case-insensitive; also the right-to-left pattern `ציון: N`), where `N` is an
integer; if found, clamp to `[0, 100]`; otherwise the score is null. -/
def extract_score_from_text (s : String) : Option Int :=
  (scanScore s.toList).map clampScore

/-- The score value as stored in the returned dict: the extracted number, or
Python `None` when no pattern matched. -/
def scoreJson : Option Int → Json
  | some n => Json.num n
  | none => Json.null
def text_prompt_seg0 : String :=
  "\n        אתה מורה מתמטיקה מומחה הבודק שיעורי בית בעברית. \n        \n        חומר ייחוס (תוכן מתמטיקה בעברית):\n        "

def text_prompt_seg1 : String :=
  "\n        \n        שיעורי בית של התלמיד:\n        שם התלמיד: "

def text_prompt_seg2 : String :=
  "\n        תוכן: "

def text_prompt_seg3 : String :=
  "\n        \n        אנא נתח את שיעורי הבית האלה וספק:\n        1. ציון כללי מתוך 100\n        2. משוב מפורט לכל בעיה/קטע\n        3. תחומים שבהם התלמיד הצטיין\n        4. תחומים הזקוקים לשיפור\n        5. הצעות ספציפיות להבנה טובה יותר\n        \n        השב בפורמט JSON הבא:\n        \x7b\n            \"score\": <מספר בין 0-100>,\n            \"detailed_feedback\": [\n                \x7b\"problem\": \"תיאור הבעיה\", \"score\": <0-10>, \"feedback\": \"משוב מפורט\"\x7d,\n            ],\n            \"strengths\": [\"רשימת חוזקות\"],\n            \"improvements\": [\"רשימת תחומים לשיפור\"],\n            \"suggestions\": [\"הצעות לימוד ספציפיות\"],\n            \"overall_comment\": \"הערה כללית מעודדת\"\n        \x7d\n        \n        היה הוגן, בונה ומעודד במשוב שלך. קח בחשבון:\n        - דיוק מתמטי\n        - גישה לפתרון בעיות\n        - הצגת עבודה/שלבים\n        - הבנה של מושגים\n        - בהירות הצגה\n        \n        אם יש בעיות בעברית, אתה יכול להשיב גם באנגלית.\n        "

def refimg_prompt_seg0 : String :=
  "\n        אתה מורה מתמטיקה מומחה הבודק שיעורי בית בעברית.\n        \n        יש לך חומר ייחוס של מתמטיקה בכתב יד בעברית (תמונות).\n        \n        שיעורי בית של התלמיד:\n        שם התלמיד: "

def refimg_prompt_seg1 : String :=
  "\n        תוכן: "

def refimg_prompt_seg2 : String :=
  "\n        \n        בהתבסס על חומר הייחוס המתמטי שתראה, אנא נתח את שיעורי הבית וספק:\n        \n        1. ציון כללי מתוך 100\n        2. השוואה לחומר הייחוס\n        3. נכונות הפתרונות\n        4. איכות הסבר והצגה\n        5. הבנת המושגים\n        \n        השב בפורמט הבא:\n        ציון: [מספר]/100\n        \n        השוואה לחומר הייחוס:\n        [כיצד התשובות משתוות לחומר הלימוד]\n        \n        ניתוח פתרונות:\n        [ניתוח מפורט של כל פתרון]\n        \n        חוזקות:\n        [מה התלמיד עשה טוב]\n        \n        שיפורים נדרשים:\n        [מה צריך לשפר]\n        \n        המלצות:\n        [המלצות ללימוד נוסף]\n        \n        הערה כללית:\n        [הערה מעודדת ובונה]\n        "

def image_prompt_seg0 : String :=
  "\n        אתה מורה מתמטיקה מומחה הבודק שיעורי בית בעברית מהתמונה הזו.\n        \n        חומר ייחוס (תוכן מתמטיקה בעברית):\n        "

def image_prompt_seg1 : String :=
  "\n        \n        תלמיד: "

def image_prompt_seg2 : String :=
  "\n        \n        אנא נתח את שיעורי הבית המוצגים בתמונה הזו וספק:\n        1. ציון כללי מתוך 100\n        2. אילו בעיות/תרגילים אתה יכול לזהות\n        3. הערכה של הפתרונות המוצגים\n        4. משוב על דיוק מתמטי\n        5. הצעות לשיפור\n        \n        התמקד ב:\n        - נכונות הפתרונות המתמטיים\n        - בהירות העבודה המוצגת\n        - גישה לפתרון בעיות\n        - הבנה שהודגמה\n        \n        ספק משוב מעודד ובונה בעברית או באנגלית.\n        \n        השב בפורמט הבא:\n        ציון: [מספר]/100\n        \n        הערכה:\n        [הערכה מפורטת]\n        \n        משוב:\n        [משוב ספציפי]\n        \n        הצעות לשיפור:\n        [הצעות קונקרטיות]\n        "


/-- The grading prompt of `analyze_homework_text` (lines 141-178): an
f-string interpolating `self.reference_content[:4000]`, `student_name` and
`homework_text` between the literal segments transcribed above. -/
def text_prompt (reference_content homework_text student_name : String) : String :=
  text_prompt_seg0 ++ pyTake reference_content 4000 ++ text_prompt_seg1 ++
    student_name ++ text_prompt_seg2 ++ homework_text ++ text_prompt_seg3

/-- The prompt of `analyze_homework_with_reference_images` (lines 211-248):
an f-string interpolating `student_name` and `homework_content` (Python
formats a non-string `homework_content` via `str`, abstracted by
`pyStrOfContent`). -/
def refimg_prompt (student_name homework_content_str : String) : String :=
  refimg_prompt_seg0 ++ student_name ++ refimg_prompt_seg1 ++
    homework_content_str ++ refimg_prompt_seg2

/-- The prompt of `analyze_homework_image` (lines 285-319): an f-string
interpolating `self.reference_content[:3000]` and `student_name`. -/
def image_prompt (reference_content student_name : String) : String :=
  image_prompt_seg0 ++ pyTake reference_content 3000 ++ image_prompt_seg1 ++
    student_name ++ image_prompt_seg2

/-- Python `str(homework_content)` as used inside the f-string of lines
211-248: a `str` formats to itself; the textual repr of a PIL image is
abstracted by a fixed marker (no claim inspects it). -/
def pyStrOfContent : HomeworkContent → String
  | HomeworkContent.text s => s
  | HomeworkContent.image _ => "<PIL.Image.Image>"

/-- The concatenation loop of `extract_pdf_content` (lines 64-67):
`text = ""` then `text += page.extract_text() + "\n"` per page. -/
def pdf_concat_text (pages : List PDFPage) : String :=
  pages.foldl (fun acc p => acc ++ (p.text ++ "\n")) ""

/-- `extract_pdf_content` (lines 59-84): concatenate per-page extracted text;
if the stripped text has more than 50 characters classify as text, otherwise
rasterize every page (one image per page) and classify as images; a stream
the libraries cannot read yields the error dict (the `st.error` call in the
handler is display-only). -/
def extract_pdf_content : PDFInput → ExtractResult
  | PDFInput.malformed msg => ExtractResult.error msg
  | PDFInput.file pages =>
    let text := pdf_concat_text pages
    if 50 < pyLen (pyStrip text) then ExtractResult.text text
    else ExtractResult.images (pages.map PDFPage.raster)

/-- `extract_pdf_text` (lines 86-94), the legacy wrapper used by the main
flow for homework PDFs. -/
def extract_pdf_text (pdf : PDFInput) : String :=
  match extract_pdf_content pdf with
  | ExtractResult.text content => content
  | ExtractResult.images content =>
    "[Handwritten PDF with " ++ toString content.length ++ " pages detected]"
  | ExtractResult.error _ => ""

/-- `extract_docx_text` (lines 96-106): concatenate paragraph texts with
newline separators; when `docx.Document` raises, the handler displays the
message via `st.error` (display-only) and the method returns the empty
string. -/
def extract_docx_text : DocxInput → String
  | DocxInput.document paragraphs =>
    paragraphs.foldl (fun acc p => acc ++ (p ++ "\n")) ""
  | DocxInput.corrupt _ => ""

/-- The Hebrew summary string stored as `reference_content` when the
reference is image-based (line 130). -/
def reference_images_summary (n : Nat) : String :=
  "מידע ההפניה מבוסס על " ++ toString n ++ " עמודים של מתמטיקה בכתב יד בעברית"

/-- `load_reference_material` (lines 117-134): dispatch on the extraction
result, returning whether loading succeeded together with the updated
state. -/
def load_reference_material (st : GradingState) (reference_file : Option PDFInput) :
    Bool × GradingState :=
  match reference_file with
  | none => (false, st)
  | some f =>
    match extract_pdf_content f with
    | ExtractResult.text content =>
      (true, { st with reference_content := content, reference_type := "text" })
    | ExtractResult.images imgs =>
      (true, { st with reference_images := imgs,
                       reference_type := "images",
                       reference_content := reference_images_summary imgs.length })
    | ExtractResult.error _ => (false, st)

/-- Message text abstracting `str(e)` of the `TypeError` Python raises at
line 192 when `json.loads` returns a non-dict value and `result["timestamp"]`
is assigned; the exact wording depends on the value's type and no claim
inspects it. -/
def type_error_str : String := "TypeError"

/-- The fence-stripping step of `analyze_homework_text` (lines 185-189):
strip the response, then remove the first 7 and last 3 characters when it
starts with a fence tagged json, or the first 3 and last 3 characters when it
starts with an untagged fence, stripping again. -/
def clean_response_text (raw : String) : String :=
  let t := pyStrip raw
  if pyStartsWith t "```json" then pyStrip (pySlice t 7 (pyLen t - 3))
  else if pyStartsWith t "```" then pyStrip (pySlice t 3 (pyLen t - 3))
  else t

/-- The normalization of the model response inside `analyze_homework_text`
(lines 183-203): attempt `json.loads` on the cleaned text; a dict result is
returned with `timestamp` and `student_name` assigned; a non-dict parse
result raises `TypeError` at the `result["timestamp"]` assignment, which the
outer handler (lines 204-205) converts to the error dict; `JSONDecodeError`
falls back to the heuristic dict built from the original raw text. -/
def normalize_model_response (raw student_name now : String) : PyDict :=
  match json_loads (clean_response_text raw) with
  | some (Json.obj fields) =>
    setField (setField fields "timestamp" (Json.str now)) "student_name"
      (Json.str student_name)
  | some _ =>
    [("error", Json.str ("Error analyzing homework: " ++ type_error_str))]
  | none =>
    [("score", scoreJson (extract_score_from_text raw)),
     ("raw_feedback", Json.str raw),
     ("timestamp", Json.str now),
     ("student_name", Json.str student_name),
     ("note", Json.str "Response parsed from natural language")]

/-- `analyze_homework_text` (lines 136-205): guard on unloaded reference
material, build the prompt, consult the model oracle (whose exceptions the
outer handler converts to the error dict), and normalize the response. The
method writes no instance field, so the state is returned unchanged. -/
def analyze_homework_text (st : GradingState) (homework_text student_name : String)
    (model : String → Except String String) (now : String) : PyDict × GradingState :=
  if st.reference_content = "" then
    ([("error", Json.str "Reference material not loaded")], st)
  else
    match model (text_prompt st.reference_content homework_text student_name) with
    | Except.error e =>
      ([("error", Json.str ("Error analyzing homework: " ++ e))], st)
    | Except.ok raw => (normalize_model_response raw student_name now, st)

/-- The homework element appended to the content list (lines 258-262): a
string is wrapped in a Hebrew label, a PIL image is appended as is. -/
def homework_part : HomeworkContent → ContentPart
  | HomeworkContent.text s => ContentPart.text ("תוכן שיעורי הבית: " ++ s)
  | HomeworkContent.image img => ContentPart.image img

/-- The `content_list` built by `analyze_homework_with_reference_images`
(lines 250-262): the prompt text, then at most the first three reference
images, then the homework part. -/
def reference_images_content_list (st : GradingState)
    (homework_content : HomeworkContent) (student_name : String) : List ContentPart :=
  [ContentPart.text (refimg_prompt student_name (pyStrOfContent homework_content))] ++
    (st.reference_images.take 3).map ContentPart.image ++
    [homework_part homework_content]

/-- `analyze_homework_with_reference_images` (lines 207-278): send the
content list to the vision-model oracle and build the result dict from the
raw response and the extracted score. -/
def analyze_homework_with_reference_images (st : GradingState)
    (homework_content : HomeworkContent) (student_name : String)
    (vision_model : List ContentPart → Except String String) (now : String) :
    PyDict × GradingState :=
  match vision_model (reference_images_content_list st homework_content student_name) with
  | Except.error e =>
    ([("error", Json.str ("Error analyzing with reference images: " ++ e))], st)
  | Except.ok raw =>
    ([("score", scoreJson (extract_score_from_text raw)),
      ("feedback", Json.str raw),
      ("timestamp", Json.str now),
      ("student_name", Json.str student_name),
      ("analysis_type", Json.str "handwritten_reference_comparison")], st)

/-- `analyze_homework_image` (lines 280-335): guard on unloaded reference
material, send the prompt and the homework image to the vision-model oracle,
and build the result dict from the raw response and the extracted score. -/
def analyze_homework_image (st : GradingState) (image : Image)
    (student_name : String) (vision_model : List ContentPart → Except String String)
    (now : String) : PyDict × GradingState :=
  if st.reference_content = "" then
    ([("error", Json.str "Reference material not loaded")], st)
  else
    match vision_model
        [ContentPart.text (image_prompt st.reference_content student_name),
         ContentPart.image image] with
    | Except.error e =>
      ([("error", Json.str ("Error analyzing image: " ++ e))], st)
    | Except.ok raw =>
      ([("score", scoreJson (extract_score_from_text raw)),
        ("feedback", Json.str raw),
        ("timestamp", Json.str now),
        ("student_name", Json.str student_name),
        ("type", Json.str "image_analysis")], st)

/-- The text-path grading action of `main` (lines 448-459): empty homework
content or an empty student name only renders an error message (modelled as
the error dict) and never reaches `analyze_homework_text`. -/
def main_grade_text_flow (st : GradingState) (homework_content student_name : String)
    (model : String → Except String String) (now : String) : PyDict :=
  if homework_content = "" then
    [("error", Json.str "Please provide homework content to grade")]
  else if student_name = "" then
    [("error", Json.str "Please enter student name")]
  else (analyze_homework_text st homework_content student_name model now).fst

/-- Converting a built string back to its character list is the identity. -/
theorem toList_mk (l : List Char) : (String.mk l).toList = l := rfl

/-- Rebuilding a string from its character list is the identity. -/
theorem mk_toList (s : String) : String.mk s.toList = s := rfl

/-- String concatenation concatenates the character lists. -/
theorem str_toList_append (a b : String) :
    (a ++ b).toList = a.toList ++ b.toList := rfl

/-- A `dropWhile` whose head fails the test drops nothing. -/
theorem dropWhile_cons_false (p : Char → Bool) (a : Char) (l : List Char)
    (h : p a = false) : (a :: l).dropWhile p = a :: l := by
  simp [List.dropWhile_cons, h]

/-- Stripping a list guarded by non-whitespace characters at both ends is
the identity. -/
theorem stripList_guarded (a b : Char) (l : List Char)
    (ha : Char.isWhitespace a = false) (hb : Char.isWhitespace b = false) :
    stripList (a :: (l ++ [b])) = a :: (l ++ [b]) := by
  unfold stripList
  rw [dropWhile_cons_false _ _ _ ha]
  have hrev : (a :: (l ++ [b])).reverse = b :: (l.reverse ++ [a]) := by
    simp
  rw [hrev, dropWhile_cons_false _ _ _ hb, ← hrev, List.reverse_reverse]

/-- C1: for every readable PDF, `extract_pdf_content` classifies by the
trimmed length of the concatenated per-page extracted text: strictly more
than 50 characters yields the text result carrying the concatenated text
(never an images result), and at most 50 characters yields the images result
with exactly one rasterized image per page. -/
theorem extract_pdf_content_classification (pages : List PDFPage) :
    (50 < pyLen (pyStrip (pdf_concat_text pages)) →
      extract_pdf_content (PDFInput.file pages) =
        ExtractResult.text (pdf_concat_text pages) ∧
      ∀ imgs, extract_pdf_content (PDFInput.file pages) ≠
        ExtractResult.images imgs) ∧
    (pyLen (pyStrip (pdf_concat_text pages)) ≤ 50 →
      extract_pdf_content (PDFInput.file pages) =
        ExtractResult.images (pages.map PDFPage.raster) ∧
      (pages.map PDFPage.raster).length = pages.length) := by
  constructor
  · intro h
    constructor
    · simp [extract_pdf_content, h]
    · intro imgs
      simp [extract_pdf_content, h]
  · intro h
    have h' : ¬ 50 < pyLen (pyStrip (pdf_concat_text pages)) := Nat.not_lt.mpr h
    constructor
    · simp [extract_pdf_content, h']
    · exact List.length_map pages PDFPage.raster

/-- Witness for C1: a one-page PDF with 60 extractable characters is
classified as text; a two-page PDF with no extractable text is classified as
images with one image per page. -/
theorem extract_pdf_content_classification_witness :
    (extract_pdf_content (PDFInput.file
        [⟨"aaaaaaaaaaaaaaaaaaaaaaaaaaaaaaaaaaaaaaaaaaaaaaaaaaaaaaaaaaaa", ⟨0⟩⟩]) =
      ExtractResult.text (pdf_concat_text
        [⟨"aaaaaaaaaaaaaaaaaaaaaaaaaaaaaaaaaaaaaaaaaaaaaaaaaaaaaaaaaaaa", ⟨0⟩⟩]) ∧
     ∀ imgs, extract_pdf_content (PDFInput.file
        [⟨"aaaaaaaaaaaaaaaaaaaaaaaaaaaaaaaaaaaaaaaaaaaaaaaaaaaaaaaaaaaa", ⟨0⟩⟩]) ≠
       ExtractResult.images imgs) ∧
    (extract_pdf_content (PDFInput.file [⟨"", ⟨0⟩⟩, ⟨"", ⟨1⟩⟩]) =
      ExtractResult.images ([(⟨"", ⟨0⟩⟩ : PDFPage), ⟨"", ⟨1⟩⟩].map PDFPage.raster) ∧
     ([(⟨"", ⟨0⟩⟩ : PDFPage), ⟨"", ⟨1⟩⟩].map PDFPage.raster).length =
       [(⟨"", ⟨0⟩⟩ : PDFPage), ⟨"", ⟨1⟩⟩].length) :=
  ⟨(extract_pdf_content_classification _).1 (by decide),
   (extract_pdf_content_classification _).2 (by decide)⟩

/-- C10: when the stored reference text is empty, `analyze_homework_text` and
`analyze_homework_image` return the error dict with message
`Reference material not loaded` for every model oracle (so the model is
never invoked) and leave the state unchanged. -/
theorem reference_guard_blocks_analysis (st : GradingState)
    (homework_text student_name now : String) (image : Image)
    (model : String → Except String String)
    (vision_model : List ContentPart → Except String String)
    (h : st.reference_content = "") :
    analyze_homework_text st homework_text student_name model now =
      ([("error", Json.str "Reference material not loaded")], st) ∧
    analyze_homework_image st image student_name vision_model now =
      ([("error", Json.str "Reference material not loaded")], st) := by
  constructor
  · simp [analyze_homework_text, h]
  · simp [analyze_homework_image, h]

/-- Witness for C10: the freshly initialised state has empty reference text,
and both analysis entry points return the guard error on it. -/
theorem reference_guard_blocks_analysis_witness :
    analyze_homework_text initial_state "1 + 1 = 2" "Dana"
        (fun _ => Except.ok "ok") "2026-10-12T00:00:00" =
      ([("error", Json.str "Reference material not loaded")], initial_state) ∧
    analyze_homework_image initial_state ⟨7⟩ "Dana"
        (fun _ => Except.ok "ok") "2026-10-12T00:00:00" =
      ([("error", Json.str "Reference material not loaded")], initial_state) :=
  reference_guard_blocks_analysis initial_state "1 + 1 = 2" "Dana"
    "2026-10-12T00:00:00" ⟨7⟩ (fun _ => Except.ok "ok") (fun _ => Except.ok "ok") rfl

/-- C6 counterexample: for a corrupted DOCX container the extraction returns
the empty string, not an Error-kind record with a non-empty message; the
underlying cause is only displayed in the UI and is absent from the returned
value. -/
theorem extract_docx_failure_counterexample :
    extract_docx_text (DocxInput.corrupt "corrupted container") = "" ∧
    pyLen (extract_docx_text (DocxInput.corrupt "corrupted container")) = 0 := by
  exact ⟨rfl, rfl⟩

/-- C6 (amended): for every DOCX input whose container fails to open or
parse, `extract_docx_text` returns the empty string (displaying the cause in
the UI only), and the main flow's empty-content guard then rejects the
submission with a fixed message without ever consulting the model, so the
downstream grading call is never attempted. -/
theorem extract_docx_failure_amended (msg : String) (st : GradingState)
    (student_name now : String) (model : String → Except String String) :
    extract_docx_text (DocxInput.corrupt msg) = "" ∧
    main_grade_text_flow st (extract_docx_text (DocxInput.corrupt msg))
        student_name model now =
      [("error", Json.str "Please provide homework content to grade")] :=
  ⟨rfl, rfl⟩

/-- C7: both grading prompts embed the reference text as a deterministic
prefix cut, of at most 4000 characters in the text prompt and at most 3000
characters in the image prompt, with no other transformation: the excerpt is
a prefix of the reference text (its first characters verbatim). -/
theorem prompt_reference_excerpt (reference_content homework_text student_name : String) :
    text_prompt reference_content homework_text student_name =
      text_prompt_seg0 ++ pyTake reference_content 4000 ++ text_prompt_seg1 ++
        student_name ++ text_prompt_seg2 ++ homework_text ++ text_prompt_seg3 ∧
    pyLen (pyTake reference_content 4000) ≤ 4000 ∧
    (pyTake reference_content 4000).toList ++ reference_content.toList.drop 4000 =
      reference_content.toList ∧
    image_prompt reference_content student_name =
      image_prompt_seg0 ++ pyTake reference_content 3000 ++ image_prompt_seg1 ++
        student_name ++ image_prompt_seg2 ∧
    pyLen (pyTake reference_content 3000) ≤ 3000 ∧
    (pyTake reference_content 3000).toList ++ reference_content.toList.drop 3000 =
      reference_content.toList := by
  refine ⟨rfl, ?_, ?_, rfl, ?_, ?_⟩
  · exact List.length_take_le 4000 reference_content.toList
  · exact List.take_append_drop 4000 reference_content.toList
  · exact List.length_take_le 3000 reference_content.toList
  · exact List.take_append_drop 3000 reference_content.toList

/-- C8: the content list sent with an image-based reference corpus is the
instruction text first, then the reference images, then the homework part,
and it carries at most 3 reference images however many pages were
rasterized. -/
theorem reference_images_content_list_order (st : GradingState)
    (homework_content : HomeworkContent) (student_name : String) :
    reference_images_content_list st homework_content student_name =
      ContentPart.text (refimg_prompt student_name (pyStrOfContent homework_content)) ::
        ((st.reference_images.take 3).map ContentPart.image ++
          [homework_part homework_content]) ∧
    ((st.reference_images.take 3).map ContentPart.image).length ≤ 3 := by
  refine ⟨rfl, ?_⟩
  rw [List.length_map]
  exact List.length_take_le 3 st.reference_images

/-- C2: whenever the cleaned response fails JSON parsing, normalization falls
back to the heuristic dict built from the extracted score and the full raw
text, with no error key; the heuristic extractor (modelled from the spec)
yields 87 on a text containing `ציון: 87/100` and null on a text with no
recognizable score pattern, which is still returned as a non-error result. -/
theorem heuristic_fallback_on_parse_failure (raw student_name now : String)
    (h : json_loads (clean_response_text raw) = none) :
    normalize_model_response raw student_name now =
      [("score", scoreJson (extract_score_from_text raw)),
       ("raw_feedback", Json.str raw),
       ("timestamp", Json.str now),
       ("student_name", Json.str student_name),
       ("note", Json.str "Response parsed from natural language")] ∧
    dictGet (normalize_model_response raw student_name now) "error" = none ∧
    extract_score_from_text "ציון: 87/100" = some 87 ∧
    normalize_model_response "עבודה מצוינת, כל הכבוד" "Dana" "2026-10-12T00:00:00" =
      [("score", Json.null),
       ("raw_feedback", Json.str "עבודה מצוינת, כל הכבוד"),
       ("timestamp", Json.str "2026-10-12T00:00:00"),
       ("student_name", Json.str "Dana"),
       ("note", Json.str "Response parsed from natural language")] := by
  have e : normalize_model_response raw student_name now =
      [("score", scoreJson (extract_score_from_text raw)),
       ("raw_feedback", Json.str raw),
       ("timestamp", Json.str now),
       ("student_name", Json.str student_name),
       ("note", Json.str "Response parsed from natural language")] := by
    unfold normalize_model_response
    rw [h]
  refine ⟨e, ?_, rfl, rfl⟩
  rw [e]
  rfl

/-- Witness for C2: the raw text `ציון: 87/100` is not JSON, so normalization
returns the heuristic dict carrying score 87 and the raw text as feedback. -/
theorem heuristic_fallback_on_parse_failure_witness :
    normalize_model_response "ציון: 87/100" "Dana" "2026-10-12T00:00:00" =
      [("score", scoreJson (extract_score_from_text "ציון: 87/100")),
       ("raw_feedback", Json.str "ציון: 87/100"),
       ("timestamp", Json.str "2026-10-12T00:00:00"),
       ("student_name", Json.str "Dana"),
       ("note", Json.str "Response parsed from natural language")] ∧
    dictGet (normalize_model_response "ציון: 87/100" "Dana" "2026-10-12T00:00:00")
      "error" = none ∧
    extract_score_from_text "ציון: 87/100" = some 87 ∧
    normalize_model_response "עבודה מצוינת, כל הכבוד" "Dana" "2026-10-12T00:00:00" =
      [("score", Json.null),
       ("raw_feedback", Json.str "עבודה מצוינת, כל הכבוד"),
       ("timestamp", Json.str "2026-10-12T00:00:00"),
       ("student_name", Json.str "Dana"),
       ("note", Json.str "Response parsed from natural language")] :=
  heuristic_fallback_on_parse_failure "ציון: 87/100" "Dana" "2026-10-12T00:00:00" rfl

/-- C3 counterexample: the text parses as a JSON object with no `score`
field, yet normalization accepts the structured parse (no fall-through to the
heuristic: no `raw_feedback`, no `note`) and returns a result without a
score. -/
theorem structured_parse_accepts_missing_score :
    normalize_model_response "\x7b\"foo\": 1\x7d" "Dana" "2026-10-12T00:00:00" =
      [("foo", Json.num 1),
       ("timestamp", Json.str "2026-10-12T00:00:00"),
       ("student_name", Json.str "Dana")] ∧
    dictGet (normalize_model_response "\x7b\"foo\": 1\x7d" "Dana"
      "2026-10-12T00:00:00") "score" = none ∧
    dictGet (normalize_model_response "\x7b\"foo\": 1\x7d" "Dana"
      "2026-10-12T00:00:00") "raw_feedback" = none ∧
    dictGet (normalize_model_response "\x7b\"foo\": 1\x7d" "Dana"
      "2026-10-12T00:00:00") "note" = none :=
  ⟨rfl, rfl, rfl, rfl⟩

/-- C3 (amended): normalization performs no check on the `score` field: any
successfully parsed JSON object is returned as the structured result (with
`timestamp` and `student_name` assigned) even if `score` is absent or not
numeric; only a JSON parse failure triggers the heuristic fallback, and such
a failure is absorbed into a non-error heuristic result (a parse success
that is not an object instead surfaces as an error result via the
`TypeError` caught by the outer handler). -/
theorem structured_parse_no_score_check :
    (∀ raw student_name now fields,
      json_loads (clean_response_text raw) = some (Json.obj fields) →
      normalize_model_response raw student_name now =
        setField (setField fields "timestamp" (Json.str now)) "student_name"
          (Json.str student_name)) ∧
    (∀ raw student_name now,
      json_loads (clean_response_text raw) = none →
      dictGet (normalize_model_response raw student_name now) "error" = none) := by
  constructor
  · intro raw student_name now fields h
    unfold normalize_model_response
    rw [h]
  · intro raw student_name now h
    unfold normalize_model_response
    rw [h]
    rfl

/-- Witness for C3 (amended): a scoreless object is accepted as structured;
a non-JSON text produces a non-error heuristic result. -/
theorem structured_parse_no_score_check_witness :
    normalize_model_response "\x7b\"a\": 2\x7d" "Noa" "2026-10-12T01:00:00" =
      setField (setField [("a", Json.num 2)] "timestamp"
        (Json.str "2026-10-12T01:00:00")) "student_name" (Json.str "Noa") ∧
    dictGet (normalize_model_response "just text" "Noa" "2026-10-12T01:00:00")
      "error" = none :=
  ⟨structured_parse_no_score_check.1 "\x7b\"a\": 2\x7d" "Noa" "2026-10-12T01:00:00"
      [("a", Json.num 2)] rfl,
   structured_parse_no_score_check.2 "just text" "Noa" "2026-10-12T01:00:00" rfl⟩

/-- C4 counterexample: a score of 150 embedded in a structured JSON response
is returned as 150 by normalization, not clamped to 100. -/
theorem structured_score_not_clamped :
    dictGet (normalize_model_response "\x7b\"score\": 150\x7d" "Dana"
      "2026-10-12T00:00:00") "score" = some (Json.num 150) ∧
    dictGet (normalize_model_response "\x7b\"score\": 150\x7d" "Dana"
      "2026-10-12T00:00:00") "score" ≠ some (Json.num 100) := by
  refine ⟨rfl, ?_⟩
  intro h
  have h' : some (Json.num 150) = some (Json.num 100) := by
    calc some (Json.num 150)
        = dictGet (normalize_model_response "\x7b\"score\": 150\x7d" "Dana"
            "2026-10-12T00:00:00") "score" := rfl
      _ = some (Json.num 100) := h
  injection h' with h''
  injection h'' with h'''
  exact absurd h''' (by decide)

/-- C4 (amended): only the heuristic free-text path clamps: every score the
(spec-modelled) heuristic extractor returns lies in `[0, 100]`, while the
structured-JSON path passes the parsed score through unchanged, so 150 stays
150 and -5 stays -5 there. -/
theorem score_clamping_amended :
    (∀ raw n, extract_score_from_text raw = some n → 0 ≤ n ∧ n ≤ 100) ∧
    dictGet (normalize_model_response "\x7b\"score\": 150\x7d" "Noa"
      "2026-10-12T01:00:00") "score" = some (Json.num 150) ∧
    dictGet (normalize_model_response "\x7b\"score\": -5\x7d" "Noa"
      "2026-10-12T01:00:00") "score" = some (Json.num (-5)) := by
  refine ⟨?_, rfl, rfl⟩
  intro raw n h
  unfold extract_score_from_text at h
  cases e : scanScore raw.toList with
  | none => rw [e] at h; simp at h
  | some m =>
    rw [e] at h
    have hn : clampScore m = n := by simpa using h
    rw [← hn]
    unfold clampScore
    constructor
    · exact le_max_left _ _
    · exact max_le (by decide) (min_le_left _ _)

/-- Witness for C4 (amended): the heuristic extractor clamps 150/100 down to
100, which lies in the interval. -/
theorem score_clamping_amended_witness :
    0 ≤ (100 : Int) ∧ (100 : Int) ≤ 100 :=
  score_clamping_amended.1 "ציון: 150/100" 100 rfl

/-- The character list of a json-tagged fenced string, exposed in
head-body-last form for the stripping lemma. -/
theorem toList_fenced_json (mid : String) :
    ("```json" ++ mid ++ "```").toList =
      '`' :: (('`' :: '`' :: 'j' :: 's' :: 'o' :: 'n' ::
        (mid.toList ++ ['`', '`'])) ++ ['`']) := by
  rw [str_toList_append, str_toList_append]
  show ['`', '`', '`', 'j', 's', 'o', 'n'] ++ mid.toList ++ ['`', '`', '`'] = _
  simp

/-- The character list of an untagged fenced string, exposed in
head-body-last form for the stripping lemma. -/
theorem toList_fenced_plain (mid : String) :
    ("```" ++ mid ++ "```").toList =
      '`' :: (('`' :: '`' :: (mid.toList ++ ['`', '`'])) ++ ['`']) := by
  rw [str_toList_append, str_toList_append]
  show ['`', '`', '`'] ++ mid.toList ++ ['`', '`', '`'] = _
  simp

/-- Stripping a json-tagged fenced string changes nothing: both ends are
backticks. -/
theorem pyStrip_fenced_json (mid : String) :
    pyStrip ("```json" ++ mid ++ "```") = "```json" ++ mid ++ "```" := by
  unfold pyStrip
  rw [toList_fenced_json, stripList_guarded _ _ _ (by decide) (by decide),
    ← toList_fenced_json, mk_toList]

/-- Stripping an untagged fenced string changes nothing. -/
theorem pyStrip_fenced_plain (mid : String) :
    pyStrip ("```" ++ mid ++ "```") = "```" ++ mid ++ "```" := by
  unfold pyStrip
  rw [toList_fenced_plain, stripList_guarded _ _ _ (by decide) (by decide),
    ← toList_fenced_plain, mk_toList]

/-- A json-tagged fenced string starts with the tagged fence. -/
theorem pyStartsWith_fenced_json (mid : String) :
    pyStartsWith ("```json" ++ mid ++ "```") "```json" = true := by
  unfold pyStartsWith
  rw [str_toList_append, str_toList_append]
  show listStartsWith ['`', '`', '`', 'j', 's', 'o', 'n']
    (['`', '`', '`', 'j', 's', 'o', 'n'] ++ mid.toList ++ ['`', '`', '`']) = true
  simp [listStartsWith]

/-- An untagged fenced string starts with the untagged fence. -/
theorem pyStartsWith_fenced_plain (mid : String) :
    pyStartsWith ("```" ++ mid ++ "```") "```" = true := by
  unfold pyStartsWith
  rw [str_toList_append, str_toList_append]
  show listStartsWith ['`', '`', '`']
    (['`', '`', '`'] ++ mid.toList ++ ['`', '`', '`']) = true
  simp [listStartsWith]

/-- A list starting with the seven characters of the tagged fence also starts
with the three characters of the untagged fence. -/
theorem listStartsWith_json_imp (cs : List Char)
    (h : listStartsWith ['`', '`', '`', 'j', 's', 'o', 'n'] cs = true) :
    listStartsWith ['`', '`', '`'] cs = true := by
  match cs with
  | [] => simp [listStartsWith] at h
  | [c1] => simp [listStartsWith] at h
  | [c1, c2] => simp [listStartsWith] at h
  | c1 :: c2 :: c3 :: rest =>
    simp [listStartsWith, Bool.and_eq_true] at h ⊢
    exact ⟨h.1, h.2.1, h.2.2.1⟩

/-- A string starting with the tagged fence starts with the untagged fence. -/
theorem pyStartsWith_json_fence (s : String)
    (h : pyStartsWith s "```json" = true) : pyStartsWith s "```" = true := by
  unfold pyStartsWith at h ⊢
  exact listStartsWith_json_imp _ h

/-- The slice `t[7:len(t)-3]` of a json-tagged fenced string is exactly the
fenced body. -/
theorem pySlice_fenced_json (mid : String) :
    pySlice ("```json" ++ mid ++ "```") 7
      (pyLen ("```json" ++ mid ++ "```") - 3) = mid := by
  unfold pySlice pyLen
  rw [str_toList_append, str_toList_append]
  have hlen : (("```json".toList ++ mid.toList) ++ "```".toList).length - 3 =
      ("```json".toList ++ mid.toList).length := by
    simp
  rw [hlen, List.take_left ("```json".toList ++ mid.toList),
    show (7 : Nat) = "```json".toList.length from rfl,
    List.drop_left "```json".toList, mk_toList]

/-- The slice `t[3:len(t)-3]` of an untagged fenced string is exactly the
fenced body. -/
theorem pySlice_fenced_plain (mid : String) :
    pySlice ("```" ++ mid ++ "```") 3
      (pyLen ("```" ++ mid ++ "```") - 3) = mid := by
  unfold pySlice pyLen
  rw [str_toList_append, str_toList_append]
  have hlen : (("```".toList ++ mid.toList) ++ "```".toList).length - 3 =
      ("```".toList ++ mid.toList).length := by
    simp
  rw [hlen, List.take_left ("```".toList ++ mid.toList),
    show (3 : Nat) = "```".toList.length from rfl,
    List.drop_left "```".toList, mk_toList]

/-- C5 counterexample: text without a leading fence is not passed to the
parser unchanged: its surrounding whitespace is always stripped first. -/
theorem clean_response_text_counterexample :
    clean_response_text " 42 " = "42" ∧ ("42" : String) ≠ " 42 " :=
  ⟨rfl, by decide⟩

/-- C5 (amended): normalization first trims surrounding whitespace from the
raw text; when the trimmed text starts with the fence tagged as JSON (or with
an untagged fence) it removes the first 7 (or 3) characters and the last 3
characters and trims again, so a fence-wrapped body reaches the JSON parser
intact up to its surrounding whitespace, and text whose trimmed form carries
no leading fence reaches the parser as that trimmed form. -/
theorem clean_response_text_amended :
    (∀ raw, pyStartsWith (pyStrip raw) "```" = false →
      clean_response_text raw = pyStrip raw) ∧
    (∀ mid, clean_response_text ("```json" ++ mid ++ "```") = pyStrip mid) ∧
    (∀ mid, pyStartsWith ("```" ++ mid ++ "```") "```json" = false →
      clean_response_text ("```" ++ mid ++ "```") = pyStrip mid) := by
  refine ⟨?_, ?_, ?_⟩
  · intro raw h
    have hj : pyStartsWith (pyStrip raw) "```json" = false := by
      cases e : pyStartsWith (pyStrip raw) "```json" with
      | false => rfl
      | true => rw [pyStartsWith_json_fence _ e] at h; cases h
    simp [clean_response_text, hj, h]
  · intro mid
    unfold clean_response_text
    rw [pyStrip_fenced_json]
    dsimp only
    simp [pyStartsWith_fenced_json, pySlice_fenced_json]
  · intro mid h
    unfold clean_response_text
    rw [pyStrip_fenced_plain]
    dsimp only
    simp [h, pyStartsWith_fenced_plain, pySlice_fenced_plain]

/-- Witness for C5 (amended): a fence-free text reaches the parser trimmed
only, and fenced bodies are recovered for both fence forms. -/
theorem clean_response_text_amended_witness :
    clean_response_text "ציון: 87" = pyStrip "ציון: 87" ∧
    clean_response_text ("```json" ++ "\x7b\"score\": 9\x7d" ++ "```") =
      pyStrip "\x7b\"score\": 9\x7d" ∧
    clean_response_text ("```" ++ "\x7b\"score\": 9\x7d" ++ "```") =
      pyStrip "\x7b\"score\": 9\x7d" :=
  ⟨clean_response_text_amended.1 "ציון: 87" rfl,
   clean_response_text_amended.2.1 "\x7b\"score\": 9\x7d",
   clean_response_text_amended.2.2 "\x7b\"score\": 9\x7d" rfl⟩

/-- A string whose stripped form has more than 50 characters is non-empty. -/
theorem ne_empty_of_pyStrip_gt (s : String)
    (h : 50 < pyLen (pyStrip s)) : s ≠ "" := by
  intro he
  subst he
  exact absurd h (by decide)

/-- The Hebrew summary stored for an image-based reference is never empty. -/
theorem reference_images_summary_ne_empty (n : Nat) :
    reference_images_summary n ≠ "" := by
  intro h
  have h2 : ("מידע ההפניה מבוסס על " ++ toString n ++
      " עמודים של מתמטיקה בכתב יד בעברית").toList = [] := congrArg String.toList h
  rw [str_toList_append, str_toList_append] at h2
  rcases List.append_eq_nil.mp h2 with ⟨h3, -⟩
  rcases List.append_eq_nil.mp h3 with ⟨h4, -⟩
  exact absurd h4 (by decide)

/-- C9: after every call to `load_reference_material` that returns true, the
reference type is not `none` and at least one of the reference text or the
reference image list is non-empty; in particular, when the reference is
classified as images the stored reference text is a non-empty summary
string. -/
theorem load_reference_material_invariant (st : GradingState)
    (reference_file : Option PDFInput) (st' : GradingState)
    (h : load_reference_material st reference_file = (true, st')) :
    st'.reference_type ≠ "none" ∧
    (st'.reference_content ≠ "" ∨ st'.reference_images ≠ []) ∧
    (st'.reference_type = "images" → st'.reference_content ≠ "") := by
  match reference_file with
  | none => simp [load_reference_material] at h
  | some (PDFInput.malformed msg) =>
    simp [load_reference_material, extract_pdf_content] at h
  | some (PDFInput.file pages) =>
    by_cases h50 : 50 < pyLen (pyStrip (pdf_concat_text pages))
    · have he : extract_pdf_content (PDFInput.file pages) =
          ExtractResult.text (pdf_concat_text pages) := by
        simp [extract_pdf_content, h50]
      rw [load_reference_material] at h
      rw [he] at h
      obtain ⟨-, rfl⟩ := Prod.mk.injEq .. |>.mp h
      refine ⟨by simp, Or.inl ?_, ?_⟩
      · simpa using ne_empty_of_pyStrip_gt _ h50
      · intro him
        exact absurd him (by simp)
    · have he : extract_pdf_content (PDFInput.file pages) =
          ExtractResult.images (pages.map PDFPage.raster) := by
        simp [extract_pdf_content, h50]
      rw [load_reference_material] at h
      rw [he] at h
      obtain ⟨-, rfl⟩ := Prod.mk.injEq .. |>.mp h
      refine ⟨by simp, Or.inl ?_, fun _ => ?_⟩
      · simpa using reference_images_summary_ne_empty (pages.map PDFPage.raster).length
      · simpa using reference_images_summary_ne_empty (pages.map PDFPage.raster).length

/-- Witness for C9: loading a one-page PDF carrying 60 characters of
extractable text succeeds and establishes the invariant on the stored
state. -/
theorem load_reference_material_invariant_witness :
    (GradingState.mk "aaaaaaaaaaaaaaaaaaaaaaaaaaaaaaaaaaaaaaaaaaaaaaaaaaaaaaaaaaaa\n"
        [] "text").reference_type ≠ "none" ∧
    ((GradingState.mk "aaaaaaaaaaaaaaaaaaaaaaaaaaaaaaaaaaaaaaaaaaaaaaaaaaaaaaaaaaaa\n"
        [] "text").reference_content ≠ "" ∨
     (GradingState.mk "aaaaaaaaaaaaaaaaaaaaaaaaaaaaaaaaaaaaaaaaaaaaaaaaaaaaaaaaaaaa\n"
        [] "text").reference_images ≠ []) ∧
    ((GradingState.mk "aaaaaaaaaaaaaaaaaaaaaaaaaaaaaaaaaaaaaaaaaaaaaaaaaaaaaaaaaaaa\n"
        [] "text").reference_type = "images" →
     (GradingState.mk "aaaaaaaaaaaaaaaaaaaaaaaaaaaaaaaaaaaaaaaaaaaaaaaaaaaaaaaaaaaa\n"
        [] "text").reference_content ≠ "") :=
  load_reference_material_invariant initial_state
    (some (PDFInput.file
      [⟨"aaaaaaaaaaaaaaaaaaaaaaaaaaaaaaaaaaaaaaaaaaaaaaaaaaaaaaaaaaaa", ⟨0⟩⟩]))
    (GradingState.mk "aaaaaaaaaaaaaaaaaaaaaaaaaaaaaaaaaaaaaaaaaaaaaaaaaaaaaaaaaaaa\n"
      [] "text") rfl
